import Mathlib

/-!
Verification of the post-processing pipeline of `cq_gears` (`src/cq_gears/common.py`,
class `PostProcMixin`) against its natural-language specification.

Shallow embedding conventions:
* Python floats are modelled as rationals (`ℚ`); the arithmetic the claims are
  about (halving, epsilon nudges, comparisons) is exact in both.
* A Python value that may be `None` is an `Option`.
* The geometry kernel (cadquery) is out of scope per the spec; it is modelled as
  an abstract operation `Kernel.apply : Body → Cutter → Body` where `Cutter` is a
  symbolic record of exactly the geometric request the code builds (which face,
  which radii, which angles via their `arcsin` arguments, which rotation index).
  Two calls that build the same `Cutter` request the same geometry.
* Python runtime failures are `Except` errors: `assertionError` for a failed
  `assert` statement (with its message) and `typeError` for arithmetic on `None`.
-/

/-- An error raised while running a post-processing routine: a failed Python
`assert` (carrying its message), or a `TypeError` from using `None` in
arithmetic. These are the only failure modes present in the source. -/
inductive PPError where
  | assertionError (msg : String)
  | typeError (msg : String)
deriving DecidableEq, Repr

/-- A chamfer extent as accepted by `PostProcMixin.chamfer`: either a single
scalar width or a pair `(wx, wy)` of axial/radial extents. -/
inductive ChamferSpec where
  | scalar (w : ℚ)
  | pair (a b : ℚ)
deriving DecidableEq, Repr

/-- A value that can appear in the parameter pool passed to `_post_process`:
a float, an int, or a 2-tuple (used for chamfer extents). -/
inductive PValue where
  | num (q : ℚ)
  | intVal (n : ℤ)
  | pairVal (a b : ℚ)
deriving DecidableEq, Repr

/-- Symbolic description of one geometric request issued to the cadquery
kernel by a routine of `PostProcMixin`. Transcendental quantities (the wedge
angles `a1, a2` and the rotation angle) are recorded by the exact rational
data that determines them: the `arcsin` arguments, the spoke count and the
rotation index. -/
inductive Cutter where
  | boreCircle (r : ℚ)
  | recessPocket (inner : Option ℚ) (outer : ℚ) (depth : ℚ)
  | hubBoss (inner : Option ℚ) (outer : ℚ) (length : ℚ)
  | spokeWedge (r1 r2 a1arg a2arg gearWidth : ℚ) (n : ℤ)
      (fillet : Option ℚ) (rotIndex : ℤ)
  | chamferTop (ra gearWidth wx wy : ℚ)
  | chamferBottom (ra wx wy : ℚ)
deriving DecidableEq, Repr

/-- The geometry kernel, abstracted: it consumes a body and a symbolic cutter
request and produces a new body. The spec treats the kernel as a black box. -/
structure Kernel (B : Type) where
  apply : B → Cutter → B

/-- The fixed geometric constants of the gear instance (`self.ra`, the
addendum radius, and `self.width`, the face width) used by `spokes` and
`chamfer`. -/
structure GearConsts where
  ra : ℚ
  width : ℚ
deriving DecidableEq, Repr

/-- A concrete kernel instance used for evaluation: the body is the list of
cutter requests applied so far, newest first. -/
def traceKernel : Kernel (List Cutter) where
  apply := fun b c => c :: b

/-- `PostProcMixin.bore`: returns the body unchanged when `bore_d` is `None`,
otherwise cuts a through-hole circle of radius `bore_d / 2` on the bottom
face. The source performs no validation of the supplied diameter. -/
def bore {B : Type} (k : Kernel B) (body : B) (bore_d : Option ℚ) :
    Except PPError B :=
  match bore_d with
  | none => .ok body
  | some d => .ok (k.apply body (.boreCircle (d / 2)))

/-- `PostProcMixin.recess`: no-op when `recess` is `None`; otherwise cuts a
blind pocket of depth `recess` on the top face, bounded by `recess_d / 2`
outside and, when present, `hub_d / 2` inside. When triggered with
`recess_d = None` the source evaluates `recess_d / 2.0` on `None`, a
`TypeError`. -/
def recess {B : Type} (k : Kernel B) (body : B) (recessDepth : Option ℚ)
    (recess_d : Option ℚ) (hub_d : Option ℚ) : Except PPError B :=
  match recessDepth with
  | none => .ok body
  | some r =>
    match recess_d with
    | none => .error (.typeError "unsupported operand type for NoneType division")
    | some rd =>
      .ok (k.apply body (.recessPocket (hub_d.map (fun h => h / 2)) (rd / 2) (-r)))

/-- `PostProcMixin.hub`: no-op when `hub_length` is `None`; asserts
`hub_d is not None` before doing any geometry; otherwise extrudes a boss of
radius `hub_d / 2` by `hub_length`, annular around `bore_d / 2` when a bore
diameter is present. -/
def hub {B : Type} (k : Kernel B) (body : B) (hub_length : Option ℚ)
    (hub_d : Option ℚ) (bore_d : Option ℚ) : Except PPError B :=
  match hub_length with
  | none => .ok body
  | some len =>
    match hub_d with
    | none => .error (.assertionError "Hub diameter is not set")
    | some hd =>
      .ok (k.apply body (.hubBoss (bore_d.map (fun bd => bd / 2)) (hd / 2) len))

/-- The inner cutout radius `r1` computed by `PostProcMixin.spokes`:
`spoke_width / 2` when `spokes_id` is absent, else
`max (spoke_width / 2) (spokes_id / 2)`, then nudged outward by `0.0001`. -/
def spokeR1 (spokes_id : Option ℚ) (spoke_width : ℚ) : ℚ :=
  (match spokes_id with
   | none => spoke_width / 2
   | some sid => max (spoke_width / 2) (sid / 2)) + 1 / 10000

/-- The outer cutout radius `r2` computed by `PostProcMixin.spokes`:
`spokes_od / 2` nudged inward by `0.0001`. -/
def spokeR2 (spokes_od : ℚ) : ℚ :=
  spokes_od / 2 - 1 / 10000

/-- The loop at the end of `PostProcMixin.spokes`: boolean-subtract `n`
copies of the wedge cutter, the `i`-th rotated by `degrees(tau * i)`. -/
def spokesCutLoop {B : Type} (k : Kernel B) (g : GearConsts) (body : B)
    (r1 r2 a1arg a2arg : ℚ) (n : ℤ) (fillet : Option ℚ) : B :=
  (List.range n.toNat).foldl
    (fun b i => k.apply b (.spokeWedge r1 r2 a1arg a2arg g.width n fillet (Int.ofNat i)))
    body

/-- `PostProcMixin.spokes`: no-op when `n_spokes` is `None`; asserts
`n_spokes > 1`, `spoke_width is not None`, `spokes_od is not None` in that
order; computes `r1`, `r2`; then evaluates
`arcsin((spoke_width / 2) / (spokes_id / 2))`, which is a `TypeError` when
`spokes_id` is `None`; finally cuts `n` rotated wedge cutters. -/
def spokes {B : Type} (k : Kernel B) (g : GearConsts) (body : B)
    (n_spokes : Option ℤ) (spokes_id : Option ℚ) (spokes_od : Option ℚ)
    (spoke_width : Option ℚ) (spoke_fillet : Option ℚ) : Except PPError B :=
  match n_spokes with
  | none => .ok body
  | some n =>
    if 1 < n then
      match spoke_width with
      | none => .error (.assertionError "Spoke width is not set")
      | some w =>
        match spokes_od with
        | none => .error (.assertionError "Outer spokes diameter is not set")
        | some od =>
          let r1 := spokeR1 spokes_id w
          let r2 := spokeR2 od
          match spokes_id with
          | none =>
            .error (.typeError "unsupported operand type for NoneType division")
          | some sid =>
            let a1arg := (w / 2) / (sid / 2)
            let a2arg := (w / 2) / (od / 2)
            .ok (spokesCutLoop k g body r1 r2 a1arg a2arg n spoke_fillet)
    else
      .error (.assertionError "Number of spokes must be > 1")

/-- The seeding step of `PostProcMixin.chamfer`: when the unqualified
`chamfer` value is present, it fills in `chamfer_top` and `chamfer_bottom`
exactly where they are `None`. Returns the effective `(top, bottom)` pair. -/
def seedChamfer (c ct cb : Option ChamferSpec) :
    Option ChamferSpec × Option ChamferSpec :=
  match c with
  | none => (ct, cb)
  | some v => (some (ct.getD v), some (cb.getD v))

/-- Unpacking of one chamfer extent in `PostProcMixin.chamfer`: a pair is
unpacked as `(wx, wy)`; a scalar `w` stands for `(w, w)`. -/
def resolveChamfer : ChamferSpec → ℚ × ℚ
  | .scalar w => (w, w)
  | .pair a b => (a, b)

/-- `PostProcMixin.chamfer`: no-op when all of `chamfer`, `chamfer_top`,
`chamfer_bottom` are `None`; otherwise seeds the per-side values from the
unqualified one, then for each present side builds a revolved triangular
cutter from `(wx, wy)` and the gear constants and subtracts it. -/
def chamfer {B : Type} (k : Kernel B) (g : GearConsts) (body : B)
    (c ct cb : Option ChamferSpec) : Except PPError B :=
  match c, ct, cb with
  | none, none, none => .ok body
  | c, ct, cb =>
    let s := seedChamfer c ct cb
    let body1 :=
      match s.1 with
      | none => body
      | some spec =>
        let p := resolveChamfer spec
        k.apply body (.chamferTop g.ra g.width p.1 p.2)
    let body2 :=
      match s.2 with
      | none => body1
      | some spec =>
        let p := resolveChamfer spec
        k.apply body1 (.chamferBottom g.ra p.1 p.2)
    .ok body2

/-! The parameter binder and the pipeline (`PostProcMixin._post_process`).

Every parameter of every routine in the source has no declared default, so
the reflection step `v.default if v.default is not sig.empty else None`
always yields `None`; the pool overlay then replaces the entries whose names
are declared by the routine. -/

/-- The parameter pool: an association of parameter names to supplied values,
where an entry may deliberately carry `none` (Python `None`). -/
def Pool : Type := List (String × Option PValue)

/-- Association-list lookup on a pool or a bound-argument list; `none` when
the name is not present at all. -/
def lookupArg : List (String × Option PValue) → String → Option (Option PValue)
  | [], _ => none
  | (k, v) :: rest, p => if p = k then some v else lookupArg rest p

/-- Declared parameter names of `bore` (the `body` parameter is excluded from
binding, as in `_post_process`). -/
def boreParams : List String := ["bore_d"]

/-- Declared parameter names of `recess`. -/
def recessParams : List String := ["recess", "recess_d", "hub_d"]

/-- Declared parameter names of `hub`. -/
def hubParams : List String := ["hub_length", "hub_d", "bore_d"]

/-- Declared parameter names of `spokes`. -/
def spokesParams : List String :=
  ["n_spokes", "spokes_id", "spokes_od", "spoke_width", "spoke_fillet"]

/-- Declared parameter names of `chamfer`. -/
def chamferParams : List String := ["chamfer", "chamfer_top", "chamfer_bottom"]

/-- Every parameter name declared by any step of the fixed sequence. -/
def allDeclaredParams : List String :=
  boreParams ++ recessParams ++ hubParams ++ spokesParams ++ chamferParams

/-- The parameter binder of `_post_process` for one step: every declared
parameter starts at `None` (no routine parameter has a default) and pool
entries whose names are declared overwrite that. A declared parameter the
pool does not mention is bound to `none`; a pool entry is consulted only
through the declared names. -/
def bindParams (decls : List String) (pool : Pool) :
    List (String × Option PValue) :=
  decls.map (fun p => (p, (lookupArg pool p).getD none))

/-- Reads one bound argument by name. -/
def getArg (args : List (String × Option PValue)) (p : String) : Option PValue :=
  (lookupArg args p).getD none

/-- Coerces a bound argument to an optional float, as Python duck typing
would when the value is used in float arithmetic. -/
def asQ : Option PValue → Except PPError (Option ℚ)
  | none => .ok none
  | some (.num q) => .ok (some q)
  | some (.intVal n) => .ok (some (n : ℚ))
  | some (.pairVal _ _) => .error (.typeError "expected a number")

/-- Coerces a bound argument to an optional int (for `n_spokes`). -/
def asZ : Option PValue → Except PPError (Option ℤ)
  | none => .ok none
  | some (.intVal n) => .ok (some n)
  | some _ => .error (.typeError "expected an int")

/-- Coerces a bound argument to an optional chamfer extent: a number stands
for a scalar extent, a 2-tuple for a pair. -/
def asChamfer : Option PValue → Except PPError (Option ChamferSpec)
  | none => .ok none
  | some (.num q) => .ok (some (.scalar q))
  | some (.intVal n) => .ok (some (.scalar (n : ℚ)))
  | some (.pairVal a b) => .ok (some (.pair a b))

/-- Dispatch of the `bore` step from its bound arguments. -/
def runBore {B : Type} (k : Kernel B) (body : B)
    (args : List (String × Option PValue)) : Except PPError B := do
  let bd ← asQ (getArg args "bore_d")
  bore k body bd

/-- Dispatch of the `recess` step from its bound arguments. -/
def runRecess {B : Type} (k : Kernel B) (body : B)
    (args : List (String × Option PValue)) : Except PPError B := do
  let r ← asQ (getArg args "recess")
  let rd ← asQ (getArg args "recess_d")
  let hd ← asQ (getArg args "hub_d")
  recess k body r rd hd

/-- Dispatch of the `hub` step from its bound arguments. -/
def runHub {B : Type} (k : Kernel B) (body : B)
    (args : List (String × Option PValue)) : Except PPError B := do
  let len ← asQ (getArg args "hub_length")
  let hd ← asQ (getArg args "hub_d")
  let bd ← asQ (getArg args "bore_d")
  hub k body len hd bd

/-- Dispatch of the `spokes` step from its bound arguments. -/
def runSpokes {B : Type} (k : Kernel B) (g : GearConsts) (body : B)
    (args : List (String × Option PValue)) : Except PPError B := do
  let n ← asZ (getArg args "n_spokes")
  let sid ← asQ (getArg args "spokes_id")
  let sod ← asQ (getArg args "spokes_od")
  let sw ← asQ (getArg args "spoke_width")
  let sf ← asQ (getArg args "spoke_fillet")
  spokes k g body n sid sod sw sf

/-- Dispatch of the `chamfer` step from its bound arguments. -/
def runChamfer {B : Type} (k : Kernel B) (g : GearConsts) (body : B)
    (args : List (String × Option PValue)) : Except PPError B := do
  let c ← asChamfer (getArg args "chamfer")
  let ct ← asChamfer (getArg args "chamfer_top")
  let cb ← asChamfer (getArg args "chamfer_bottom")
  chamfer k g body c ct cb

/-- `PostProcMixin._post_process`: threads the body through the fixed
sequence bore → recess → hub → spokes → chamfer, binding each step's
arguments from the pool via `bindParams`. -/
def postProcess {B : Type} (k : Kernel B) (g : GearConsts) (body : B)
    (pool : Pool) : Except PPError B := do
  let b1 ← runBore k body (bindParams boreParams pool)
  let b2 ← runRecess k b1 (bindParams recessParams pool)
  let b3 ← runHub k b2 (bindParams hubParams pool)
  let b4 ← runSpokes k g b3 (bindParams spokesParams pool)
  runChamfer k g b4 (bindParams chamferParams pool)

/-! Helper lemmas (shared, not tied to any single claim). -/

/-- A pool entry whose key a step does not declare does not change that
step's bound arguments. -/
theorem bindParams_cons_of_not_mem (decls : List String) (pool : Pool)
    (key : String) (v : Option PValue) (h : key ∉ decls) :
    bindParams decls ((key, v) :: pool) = bindParams decls pool := by
  unfold bindParams
  apply List.map_congr_left
  intro p hp
  have hne : p ≠ key := fun e => h (e ▸ hp)
  simp [lookupArg, hne]

/-! Theorems for the claims. -/

/-- C3: every step of the sequence (bore, recess, hub, spokes, chamfer)
returns the input body unchanged when its primary trigger parameter is
absent; for chamfer this requires all three of `chamfer`, `chamfer_top`,
`chamfer_bottom` to be absent. -/
theorem step_trigger_absent_is_noop {B : Type} (k : Kernel B) (g : GearConsts)
    (b : B) (rd hd hd2 bd sid sod sw sf : Option ℚ) :
    bore k b none = .ok b ∧
    recess k b none rd hd = .ok b ∧
    hub k b none hd2 bd = .ok b ∧
    spokes k g b none sid sod sw sf = .ok b ∧
    chamfer k g b none none none = .ok b :=
  ⟨rfl, rfl, rfl, rfl, rfl⟩

/-- C6: invoking `hub` with a hub length supplied but `hub_d` absent fails
with the assertion error of line 125 of the source (the spec's
`MissingParameter` case), and no modified body is produced. -/
theorem hub_missing_diameter_fails {B : Type} (k : Kernel B) (b : B)
    (len : ℚ) (bd : Option ℚ) :
    hub k b (some len) none bd = .error (.assertionError "Hub diameter is not set") :=
  rfl

/-- C9: invoking `spokes` with a supplied spoke count `n ≤ 1` fails with the
assertion error of line 145 of the source (the spec's `InvalidParameter`
case); no cut is performed. -/
theorem spokes_low_count_fails {B : Type} (k : Kernel B) (g : GearConsts)
    (b : B) (n : ℤ) (sid sod sw sf : Option ℚ) (h : n ≤ 1) :
    spokes k g b (some n) sid sod sw sf
      = .error (.assertionError "Number of spokes must be > 1") := by
  simp only [spokes, if_neg (not_lt.mpr h)]

/-- Witness for C9 at `n = 1` with the trace kernel. -/
theorem spokes_low_count_fails_witness :
    (1 : ℤ) ≤ 1 ∧
    spokes traceKernel ⟨10, 5⟩ ([] : List Cutter) (some 1) none (some 18) (some 2) none
      = .error (.assertionError "Number of spokes must be > 1") :=
  ⟨le_refl 1,
   spokes_low_count_fails traceKernel ⟨10, 5⟩ [] 1 none (some 18) (some 2) none (le_refl 1)⟩

/-- C7: a scalar chamfer extent `w` unpacks to the same `(wx, wy)` pair as
the explicit pair `(w, w)`, hence building the same cutter and the same
result body, on the top side and on the bottom side alike. -/
theorem chamfer_scalar_eq_pair {B : Type} (k : Kernel B) (g : GearConsts)
    (b : B) (c cb ct : Option ChamferSpec) (w : ℚ) :
    resolveChamfer (.scalar w) = resolveChamfer (.pair w w) ∧
    chamfer k g b c (some (.scalar w)) cb = chamfer k g b c (some (.pair w w)) cb ∧
    chamfer k g b c ct (some (.scalar w)) = chamfer k g b c ct (some (.pair w w)) := by
  refine ⟨rfl, ?_, ?_⟩
  · cases c <;> cases cb <;> rfl
  · cases c <;> cases ct <;> rfl

/-- C8: when the unqualified `chamfer` value is supplied, the seeding step
uses it for `chamfer_top` and `chamfer_bottom` exactly where that side was
not individually supplied, and never overrides an individually supplied
side; consequently, when both sides are supplied, the unqualified value has
no effect on the result. -/
theorem chamfer_seeding {B : Type} (k : Kernel B) (g : GearConsts) (b : B)
    (v t bt : ChamferSpec) :
    seedChamfer (some v) none none = (some v, some v) ∧
    seedChamfer (some v) (some t) none = (some t, some v) ∧
    seedChamfer (some v) none (some bt) = (some v, some bt) ∧
    seedChamfer (some v) (some t) (some bt) = (some t, some bt) ∧
    chamfer k g b (some v) (some t) (some bt) = chamfer k g b none (some t) (some bt) :=
  ⟨rfl, rfl, rfl, rfl, rfl⟩

/-- C2 (code bug): calling `spokes` with `spokes_id` absent crashes with a
`TypeError` at the `arcsin((spoke_width / 2) / (spokes_id / 2))` expression
of line 160, despite line 149 of the source explicitly handling
`spokes_id is None` for `r1`; the spec says the routine must succeed with a
degenerate wedge. Evaluated at `n_spokes = 5`, `spokes_od = 18`,
`spoke_width = 2`. -/
theorem spokes_id_absent_type_error :
    spokes traceKernel ⟨10, 5⟩ ([] : List Cutter) (some 5) none (some 18) (some 2) none
      = .error (.typeError "unsupported operand type for NoneType division") :=
  rfl

/-- C4 counterexample: at `spokes_id = 18`, `spokes_od = 18`,
`spoke_width = 2` — a combination satisfying every constraint the source
checks (`n > 1`, width and outer diameter supplied) and the arcsin domain
(`spoke_width ≤ spokes_id ≤ spokes_od`) — the epsilon-adjusted radii
violate `r1 < r2`. -/
theorem spokes_radii_counterexample :
    (2 : ℚ) ≤ 18 ∧ (18 : ℚ) ≤ 18 ∧ (1 : ℤ) < 5 ∧
    ¬ (spokeR1 (some 18) 2 < spokeR2 18) := by
  refine ⟨by norm_num, le_refl _, by norm_num, ?_⟩
  norm_num [spokeR1, spokeR2]

/-- C4 amended: the epsilon-adjusted radii of `spokes` satisfy `r1 < r2`
exactly when the outer diameter exceeds `max spoke_width spokes_id` (or
`spoke_width` alone when `spokes_id` is absent) by more than `0.0004`. -/
theorem spokes_radii_order_iff (sid od w : ℚ) :
    (spokeR1 (some sid) w < spokeR2 od ↔ max w sid + 1 / 2500 < od) ∧
    (spokeR1 none w < spokeR2 od ↔ w + 1 / 2500 < od) := by
  simp only [spokeR1, spokeR2]
  constructor
  · rcases le_total w sid with h | h
    · rw [max_eq_right (by linarith : w / 2 ≤ sid / 2), max_eq_right h]
      constructor <;> intro <;> linarith
    · rw [max_eq_left (by linarith : sid / 2 ≤ w / 2), max_eq_left h]
      constructor <;> intro <;> linarith
  · constructor <;> intro <;> linarith

/-- C5 counterexample: `bore` invoked with the supplied diameter `-3`
performs the cut (a circle of radius `-3 / 2` is sent to the kernel) and
returns it as the new body; no `InvalidParameter` failure occurs. -/
theorem bore_negative_diameter_cuts :
    bore traceKernel ([] : List Cutter) (some (-3))
      = .ok [Cutter.boreCircle (-3 / 2)] :=
  rfl

/-- C5 amended: `bore` performs no validation of the supplied diameter: for
every `bore_d = d ≤ 0` it succeeds, passing the circle of radius `d / 2`
straight to the kernel instead of raising `InvalidParameter`. -/
theorem bore_no_validation {B : Type} (k : Kernel B) (b : B) (d : ℚ)
    (h : d ≤ 0) :
    bore k b (some d) = .ok (k.apply b (.boreCircle (d / 2))) :=
  rfl

/-- Witness for the amended C5 at `d = -3` with the trace kernel. -/
theorem bore_no_validation_witness :
    (-3 : ℚ) ≤ 0 ∧
    bore traceKernel ([] : List Cutter) (some (-3))
      = .ok (traceKernel.apply [] (.boreCircle ((-3) / 2))) :=
  ⟨by norm_num, bore_no_validation traceKernel [] (-3) (by norm_num)⟩

/-- C1 counterexample: with `hub`'s descriptor (all of whose parameters lack
defaults) and a pool supplying none of them, the binder produces a complete
binding with `none` substituted for every parameter — it does not fail —
and the whole pipeline then runs to success on the empty pool; moreover,
when the pool triggers `recess` but omits the required `recess_d`, the
eventual failure is a `TypeError` inside the routine, not a binder
`MissingParameter`. -/
theorem binder_binds_none_counterexample :
    bindParams hubParams [] = [("hub_length", none), ("hub_d", none), ("bore_d", none)] ∧
    postProcess traceKernel ⟨10, 5⟩ ([] : List Cutter) [] = .ok [] ∧
    postProcess traceKernel ⟨10, 5⟩ ([] : List Cutter) [("recess", some (.num 5))]
      = .error (.typeError "unsupported operand type for NoneType division") :=
  ⟨rfl, rfl, rfl⟩

/-- C1 amended: when a declared parameter (none has a default) is not
supplied by the pool, the binder silently binds `none` (Python `None`) for
it instead of failing with `MissingParameter`; missing required values
surface only later, inside the routines. -/
theorem binder_binds_none_for_unsupplied (decls : List String) (pool : Pool)
    (key : String) (h1 : key ∈ decls) (h2 : lookupArg pool key = none) :
    (key, (none : Option PValue)) ∈ bindParams decls pool := by
  unfold bindParams
  have hm := List.mem_map_of_mem (fun p => (p, (lookupArg pool p).getD none)) h1
  simpa [h2] using hm

/-- Witness for the amended C1: `hub_d` is declared by `hub`, has no
default, and the empty pool does not supply it; the binder binds `none`. -/
theorem binder_binds_none_for_unsupplied_witness :
    "hub_d" ∈ hubParams ∧ lookupArg [] "hub_d" = none ∧
    ("hub_d", (none : Option PValue)) ∈ bindParams hubParams [] :=
  ⟨by decide, rfl,
   binder_binds_none_for_unsupplied hubParams [] "hub_d" (by decide) rfl⟩

/-- C10: a pool entry whose name matches no declared parameter of any step
is silently ignored: it changes no step's bound arguments and does not
change the pipeline's result (in particular it causes no error). -/
theorem unknown_pool_entry_ignored {B : Type} (k : Kernel B) (g : GearConsts)
    (b : B) (pool : Pool) (key : String) (v : Option PValue)
    (h : key ∉ allDeclaredParams) :
    bindParams boreParams ((key, v) :: pool) = bindParams boreParams pool ∧
    bindParams recessParams ((key, v) :: pool) = bindParams recessParams pool ∧
    bindParams hubParams ((key, v) :: pool) = bindParams hubParams pool ∧
    bindParams spokesParams ((key, v) :: pool) = bindParams spokesParams pool ∧
    bindParams chamferParams ((key, v) :: pool) = bindParams chamferParams pool ∧
    postProcess k g b ((key, v) :: pool) = postProcess k g b pool := by
  simp only [allDeclaredParams, List.mem_append, not_or] at h
  obtain ⟨⟨⟨⟨h1, h2⟩, h3⟩, h4⟩, h5⟩ := h
  have e1 := bindParams_cons_of_not_mem boreParams pool key v h1
  have e2 := bindParams_cons_of_not_mem recessParams pool key v h2
  have e3 := bindParams_cons_of_not_mem hubParams pool key v h3
  have e4 := bindParams_cons_of_not_mem spokesParams pool key v h4
  have e5 := bindParams_cons_of_not_mem chamferParams pool key v h5
  refine ⟨e1, e2, e3, e4, e5, ?_⟩
  unfold postProcess
  rw [e1, e2, e3, e4, e5]

/-- Witness for C10: the undeclared key `mystery_knob` with a numeric value
is ignored by every step's binding and by the whole pipeline. -/
theorem unknown_pool_entry_ignored_witness :
    "mystery_knob" ∉ allDeclaredParams ∧
    postProcess traceKernel ⟨10, 5⟩ ([] : List Cutter)
        [("mystery_knob", some (.num 7))]
      = postProcess traceKernel ⟨10, 5⟩ ([] : List Cutter) [] :=
  ⟨by decide,
   (unknown_pool_entry_ignored traceKernel ⟨10, 5⟩ [] [] "mystery_knob"
      (some (.num 7)) (by decide)).2.2.2.2.2⟩
